import Mathlib

/-!
Verification of the particle lifecycle managers of the revomo-hero page
(`src/main.js`: `ParticleSystem`, `DiagonalParticleSystem`;
`src/footer.js`: `CircularParticleSystem`).

Particles are identified by natural-number ids in spawn order.  A manager's
mutable state is embedded as `MgrState`: the `particles` array (the active
set), the container's child list `scene` (the DOM nodes of the particles),
the stored `spawnInterval` handle and the set of interval timers that are
actually live (`activeIntervals`).  JavaScript timer ids are `Nat`.
-/

/-- State of one particle manager: the `this.particles` array, the DOM
children of the container, the stored `this.spawnInterval` handle, and the
interval timers currently live in the browser. -/
structure MgrState where
  particles : List Nat
  scene : List Nat
  spawnInterval : Option Nat
  activeIntervals : List Nat
deriving DecidableEq, Repr

/-- `removeParticle(particle)` as written identically in all three managers
(main.js:1033, main.js:1253, footer.js:287): detach the DOM node if it has a
parent, then `indexOf`/`splice` the particle out of `this.particles` (with
distinct particle ids this is erasure of the first occurrence; both
operations are silent no-ops when the particle is absent). -/
def removeParticle (s : MgrState) (p : Nat) : MgrState :=
  { s with scene := s.scene.erase p, particles := s.particles.erase p }

/-- `clearInterval(this.spawnInterval)` guarded by `if (this.spawnInterval)`:
removes the stored handle from the live timers; clearing an already cleared
or never-set handle is a no-op.  The field itself is not reset by `destroy`. -/
def clearSpawnInterval (s : MgrState) : MgrState :=
  match s.spawnInterval with
  | some i => { s with activeIntervals := s.activeIntervals.erase i }
  | none => s

/-- The `this.particles.forEach(p => this.removeParticle(p))` loop of
`destroy()`.  Per ECMAScript, `forEach` captures the array length once
(the fuel), then visits indices `k = 0, 1, ...`; an index that no longer
exists after the splices is skipped, and the element *currently* at index
`k` is the one visited. -/
def destroyLoop : Nat → Nat → MgrState → MgrState
  | 0, _, s => s
  | fuel + 1, k, s =>
      destroyLoop fuel (k + 1)
        (match s.particles.get? k with
         | some p => removeParticle s p
         | none => s)

/-- `destroy()` as written identically in all three managers
(main.js:1053, main.js:1283, footer.js:317): clear the spawn interval, then
`forEach`-remove over the particles array being spliced underneath. -/
def destroy (s : MgrState) : MgrState :=
  destroyLoop (clearSpawnInterval s).particles.length 0 (clearSpawnInterval s)

/-- A manager with two active particles, both mounted in the scene, and no
pending spawn interval (e.g. `ParticleSystem` after two successful spawns). -/
def twoParticleState : MgrState :=
  { particles := [1, 2], scene := [1, 2], spawnInterval := none, activeIntervals := [] }

namespace ParticleSystem

/-- `this.maxParticles = 75` (main.js:869). -/
def maxParticles : Nat := 75

/-- `this.minSize = 1.44` (main.js:872), as an exact rational. -/
def minSize : ℚ := 1.44

/-- `this.maxSize = 5` (main.js:873). -/
def maxSize : ℚ := 5

/-- `getRandomSize()` (main.js:959): `minSize + Math.random() * (maxSize - minSize)`;
the `Math.random()` draw is the parameter `u`, which lies in `[0, 1)`. -/
def getRandomSize (u : ℚ) : ℚ := minSize + u * (maxSize - minSize)

/-- The colour/opacity branch inside `createParticle()` (main.js:915):
`Math.random() < 0.8` gives opacity `0.8` (colour `#ACA0E4`), otherwise `0.4`. -/
def particleOpacity (u : ℚ) : ℚ := if u < 0.8 then 0.8 else 0.4

/-- `spawnParticle()` set management (main.js:975): bail out when the array is
at `maxParticles` or the container is missing, otherwise push the new id.
No warning is emitted; `present` is whether the container exists. -/
def spawnStep (present : Bool) (l : List Nat) (pid : Nat) : List Nat :=
  if maxParticles ≤ l.length ∨ present = false then l else l ++ [pid]

/-- `startAnimation()` (main.js:1046) schedules `maxParticles` staggered
`spawnParticle` calls; this folds the `n` resulting spawn attempts. -/
def spawnBatch (present : Bool) : Nat → List Nat
  | 0 => []
  | n + 1 => spawnStep present (spawnBatch present n) n

end ParticleSystem

namespace DiagonalParticleSystem

/-- `this.maxParticles = 45` (main.js:1065). -/
def maxParticles : Nat := 45

/-- `this.minSize = 1` (main.js:1072). -/
def minSize : ℚ := 1

/-- `this.maxSize = 3` (main.js:1073). -/
def maxSize : ℚ := 3

/-- `getRandomSize()` (main.js:1159). -/
def getRandomSize (u : ℚ) : ℚ := minSize + u * (maxSize - minSize)

/-- `getOpacityBasedOnSize(size)` (main.js:1163):
`0.3 + ((size - minSize) / (maxSize - minSize)) * 0.7`. -/
def getOpacityBasedOnSize (size : ℚ) : ℚ :=
  0.3 + (size - minSize) / (maxSize - minSize) * 0.7

/-- `spawnParticle()` set management (main.js:1169), parametrised by the cap:
when the array has reached the cap, `particles[0]` is removed if it exists
(`if (oldestParticle)`), then the new particle is always pushed.  The second
component logs the evicted ids in eviction order. -/
def spawnStepLog (cap : Nat) (st : List Nat × List Nat) (pid : Nat) :
    List Nat × List Nat :=
  if cap ≤ st.1.length then
    match st.1 with
    | [] => (st.1 ++ [pid], st.2)
    | old :: rest => (rest ++ [pid], st.2 ++ [old])
  else (st.1 ++ [pid], st.2)

/-- `n` successive spawn ticks from an empty active set; the particle spawned
on tick `i` has id `i` (1-based spawn order). -/
def spawnTicks (cap : Nat) : Nat → List Nat × List Nat
  | 0 => ([], [])
  | n + 1 => spawnStepLog cap (spawnTicks cap n) (n + 1)

end DiagonalParticleSystem

namespace CircularParticleSystem

/-- `this.maxParticles = 90` (footer.js:80): "Total particles across all
directions (increased for 9 directions)". -/
def maxParticles : Nat := 90

/-- `this.minSize = 1.44` (footer.js:85). -/
def minSize : ℚ := 1.44

/-- `this.maxSize = 5` (footer.js:86). -/
def maxSize : ℚ := 5

/-- `getRandomSize()` (footer.js:188). -/
def getRandomSize (u : ℚ) : ℚ := minSize + u * (maxSize - minSize)

/-- The colour/opacity branch inside `createParticle()` (footer.js:140):
identical to `ParticleSystem`'s: `0.8` with probability 0.8, else `0.4`. -/
def particleOpacity (u : ℚ) : ℚ := if u < 0.8 then 0.8 else 0.4

/-- `this.directions` (footer.js:90): nine named angles, in degrees. -/
def directions : List (String × ℚ) :=
  [("quarter-left", 160), ("left-top", 135), ("top-left-wide", 110),
   ("top-left", 100), ("top", 90), ("top-right", 80),
   ("top-right-wide", 70), ("top-right-diagonal", 45), ("quarter-right", 20)]

/-- The `while (this.particles.length >= this.maxParticles)` eviction loop at
the head of `spawnCircularBurst()` (footer.js:198): repeatedly remove
`particles[0]` while the array is at or above the cap (for `cap ≥ 1` the
guard `if (oldestParticle)` is always true on a non-empty array). -/
def evictLoop (cap : Nat) : List Nat → List Nat
  | [] => []
  | p :: rest => if cap ≤ (p :: rest).length then evictLoop cap rest else p :: rest

/-- One `spawnCircularBurst()` (footer.js:192): run the eviction loop once,
then push one particle per entry of `directions` (nine pushes, with no
further cap check).  Burst number `tick` contributes ids
`tick*9, ..., tick*9 + 8`. -/
def spawnCircularBurst (cap : Nat) (l : List Nat) (tick : Nat) : List Nat :=
  evictLoop cap l ++ (List.range directions.length).map (fun i => tick * directions.length + i)

/-- The active set after `n` successive bursts from an empty set with no
intervening animation completions (the first motion timeline completes only
after 22-30 s, while bursts arrive every 700 ms). -/
def afterBursts : Nat → List Nat
  | 0 => []
  | n + 1 => spawnCircularBurst maxParticles (afterBursts n) n

end CircularParticleSystem

/-- Observable outcome of one `init()`/`start()` call: the particles spawned
synchronously, the `console.warn` messages emitted, and whether a repeating
spawn interval was installed. -/
structure InitOutcome where
  particles : List Nat
  warnings : List String
  timerStarted : Bool
deriving DecidableEq, Repr

/-- `DiagonalParticleSystem.init()` (main.js:1077): with no container it warns
and returns `false` without starting anything; with a container it installs
the spawn interval (the staggered spawns themselves are asynchronous, so the
active set is still empty when `init` returns). -/
def DiagonalParticleSystem.initOutcome : Bool → InitOutcome
  | false => { particles := [], warnings := ["Diagonal particle container not found"],
               timerStarted := false }
  | true => { particles := [], warnings := [], timerStarted := true }

/-- `CircularParticleSystem.init()` (footer.js:105): same shape as the
diagonal variant's `init`, with its own warning text. -/
def CircularParticleSystem.initOutcome : Bool → InitOutcome
  | false => { particles := [], warnings := ["Circular particle container not found"],
               timerStarted := false }
  | true => { particles := [], warnings := [], timerStarted := true }

/-- `ParticleSystem.start()` (main.js:903, main.js:1046): schedules
`maxParticles` spawn attempts; each `spawnParticle` silently returns when the
container is missing — no warning is ever logged on this path, and no
repeating interval is installed. -/
def ParticleSystem.startOutcome (present : Bool) : InitOutcome :=
  { particles := ParticleSystem.spawnBatch present ParticleSystem.maxParticles,
    warnings := [], timerStarted := false }

/-- Timer bookkeeping of one manager: live interval ids, the stored
`this.spawnInterval`, and the next id `setInterval` will hand out. -/
structure TimerState where
  activeIntervals : List Nat
  spawnInterval : Option Nat
  nextId : Nat
deriving DecidableEq, Repr

/-- A freshly constructed manager: no live timer, `this.spawnInterval = null`. -/
def freshTimerState : TimerState :=
  { activeIntervals := [], spawnInterval := none, nextId := 0 }

/-- `DiagonalParticleSystem.startAnimation()` timer logic (main.js:1264):
`if (this.spawnInterval) clearInterval(this.spawnInterval)`, then
`this.spawnInterval = setInterval(...)` with a fresh id. -/
def DiagonalParticleSystem.startAnimation (s : TimerState) : TimerState :=
  { activeIntervals :=
      (match s.spawnInterval with
       | some i => s.activeIntervals.erase i
       | none => s.activeIntervals) ++ [s.nextId],
    spawnInterval := some s.nextId,
    nextId := s.nextId + 1 }

/-- `CircularParticleSystem.startAnimation()` timer logic (footer.js:300):
textually the same clear-then-replace discipline as the diagonal variant. -/
def CircularParticleSystem.startAnimation (s : TimerState) : TimerState :=
  { activeIntervals :=
      (match s.spawnInterval with
       | some i => s.activeIntervals.erase i
       | none => s.activeIntervals) ++ [s.nextId],
    spawnInterval := some s.nextId,
    nextId := s.nextId + 1 }

/-- The debounce delay used by every `setupResizeHandler` (main.js:888,
main.js:1093, footer.js:116): `setTimeout(..., 100)`. -/
def resizeDebounceDelay : Nat := 100

/-- The resize handler's debounce semantics: each event does
`clearTimeout(resizeTimeout); resizeTimeout = setTimeout(cb, delay)`.  Given
the (sorted) event times, a timeout scheduled at event time `t` fires at
`t + delay` exactly when no later event arrives before that moment; the
result lists the times at which the layout-recompute callback actually runs. -/
def debounceFires (delay : Nat) : List Nat → List Nat
  | [] => []
  | [t] => [t + delay]
  | t1 :: t2 :: rest =>
      (if t1 + delay ≤ t2 then [t1 + delay] else []) ++ debounceFires delay (t2 :: rest)

/-- Degrees to radians, `angle * Math.PI / 180` as in both motion evaluators. -/
noncomputable def degToRad (d : ℝ) : ℝ := d * Real.pi / 180

/-- `CircularParticleSystem.animateParticleInDirection` travel distance
(footer.js:244): `(800 + Math.random() * 500) * 0.62`, with `u` the random
draw in `[0, 1)`. -/
noncomputable def CircularParticleSystem.travelDistance (u : ℝ) : ℝ :=
  (800 + u * 500) * 0.62

/-- `endX` of `animateParticleInDirection` (footer.js:251):
`startX + Math.cos(angleRad) * travelDistance`. -/
noncomputable def CircularParticleSystem.endX (startX angleDeg u : ℝ) : ℝ :=
  startX + Real.cos (degToRad angleDeg) * CircularParticleSystem.travelDistance u

/-- `endY` of `animateParticleInDirection` (footer.js:252):
`startY - Math.sin(angleRad) * travelDistance` ("Negative because Y increases
downward"). -/
noncomputable def CircularParticleSystem.endY (startY angleDeg u : ℝ) : ℝ :=
  startY - Real.sin (degToRad angleDeg) * CircularParticleSystem.travelDistance u

/-- `this.beamAngle = 135` degrees (main.js:1068). -/
noncomputable def DiagonalParticleSystem.beamAngle : ℝ := 135

/-- `angleRad` in `animateParticle` (main.js:1218). -/
noncomputable def DiagonalParticleSystem.angleRad : ℝ :=
  degToRad DiagonalParticleSystem.beamAngle

/-- `travelDist` in `animateParticle` (main.js:1221):
`(containerHeight / Math.sin(angleRad)) * 1.5` with `containerHeight = 679`. -/
noncomputable def DiagonalParticleSystem.travelDist : ℝ :=
  679 / Real.sin DiagonalParticleSystem.angleRad * 1.5

/-- `finalAngle` in `animateParticle` (main.js:1224): the beam angle plus a
drift of `(Math.random() - 0.5) * 0.1` radians, `u` being the random draw. -/
noncomputable def DiagonalParticleSystem.finalAngle (u : ℝ) : ℝ :=
  DiagonalParticleSystem.angleRad + (u - 0.5) * 0.1

/-- `endX` of `DiagonalParticleSystem.animateParticle` (main.js:1227):
`startX + travelDist * Math.cos(finalAngle)`. -/
noncomputable def DiagonalParticleSystem.endX (startX u : ℝ) : ℝ :=
  startX + DiagonalParticleSystem.travelDist * Real.cos (DiagonalParticleSystem.finalAngle u)

/-- `endY` of `DiagonalParticleSystem.animateParticle` (main.js:1228):
`startY + travelDist * Math.sin(finalAngle)` — a plus sign, not the minus of
the circular variant. -/
noncomputable def DiagonalParticleSystem.endY (startY u : ℝ) : ℝ :=
  startY + DiagonalParticleSystem.travelDist * Real.sin (DiagonalParticleSystem.finalAngle u)

/-- The end-point abscissa exactly as the spec's formula states it:
`end.x = start.x + distance * cos(angle)`. -/
noncomputable def specMotionEndX (startX dist ang : ℝ) : ℝ :=
  startX + dist * Real.cos ang

/-- The end-point ordinate exactly as the spec's formula states it:
`end.y = start.y - distance * sin(angle)` (Y axis inverted). -/
noncomputable def specMotionEndY (startY dist ang : ℝ) : ℝ :=
  startY - dist * Real.sin ang

/-- C1: the claimed cap invariant fails for `CircularParticleSystem`.  Its
burst evicts only down to `maxParticles - 1` and then pushes one particle per
direction (nine of them) with no further check: starting from an empty active
set, eleven consecutive bursts (about 7.7 s at the 700 ms cadence, before any
22-30 s motion timeline can complete) leave 98 active particles, exceeding
the configured cap of 90. -/
theorem claim_C1_circular_cap_exceeded :
    (CircularParticleSystem.afterBursts 11).length = 98 ∧
    CircularParticleSystem.maxParticles < (CircularParticleSystem.afterBursts 11).length := by
  constructor
  · rfl
  · decide

/-- C3: `destroy()` does not clear the active set.  The `forEach` loop splices
the array it is iterating, so it skips every other element: on a manager with
two active particles it removes only the first; the second stays in the
active set and its node stays in the scene. -/
theorem claim_C3_destroy_leaves_survivor :
    (destroy twoParticleState).particles = [2] ∧
    (destroy twoParticleState).scene = [2] ∧
    (destroy twoParticleState).particles ≠ [] := by
  decide

/-- C4: `destroy()` is not idempotent.  After a first `destroy()` on a manager
with two active particles, one particle survives (see C3); the second
`destroy()` call removes it, so the second call does perform a further
removal and does change state. -/
theorem claim_C4_second_destroy_not_noop :
    destroy (destroy twoParticleState) ≠ destroy twoParticleState ∧
    (destroy twoParticleState).particles = [2] ∧
    (destroy (destroy twoParticleState)).particles = [] := by
  decide

/-- C6: `DiagonalParticleSystem` with `maxParticles = 1`: after three spawn
ticks from an empty set, exactly the third particle is active and the first
two were evicted in spawn order (oldest first). -/
theorem claim_C6_fifo_evicts_oldest :
    DiagonalParticleSystem.spawnTicks 1 3 = ([3], [1, 2]) ∧
    (DiagonalParticleSystem.spawnTicks 1 3).1.length = 1 := by
  decide

/-- With no container, every one of the `n` scheduled `spawnParticle` calls
returns at its guard, so the batch spawns nothing. -/
theorem ParticleSystem.spawnBatch_absent (n : Nat) :
    ParticleSystem.spawnBatch false n = [] := by
  induction n with
  | zero => rfl
  | succ n ih => simp [ParticleSystem.spawnBatch, ParticleSystem.spawnStep, ih]

/-- C7 counterexample: `ParticleSystem` with its container absent reports no
warning at all on the `start()` path — `spawnParticle` just returns silently —
refuting the claim that every manager warns when its container is missing
(the no-op part does hold: no particle is spawned). -/
theorem claim_C7_particle_system_never_warns :
    (ParticleSystem.startOutcome false).warnings = [] ∧
    (ParticleSystem.startOutcome false).particles = [] := by
  refine ⟨rfl, ?_⟩
  simp [ParticleSystem.startOutcome, ParticleSystem.spawnBatch_absent]

/-- C7 amended: with the container absent, `DiagonalParticleSystem.init()` and
`CircularParticleSystem.init()` warn and are no-ops (no timer, empty active
set), while `ParticleSystem.start()` is a silent no-op (empty active set, no
timer, but no warning); none of the three throws. -/
theorem claim_C7_missing_container_noop :
    (DiagonalParticleSystem.initOutcome false).warnings ≠ [] ∧
    (DiagonalParticleSystem.initOutcome false).particles = [] ∧
    (DiagonalParticleSystem.initOutcome false).timerStarted = false ∧
    (CircularParticleSystem.initOutcome false).warnings ≠ [] ∧
    (CircularParticleSystem.initOutcome false).particles = [] ∧
    (CircularParticleSystem.initOutcome false).timerStarted = false ∧
    (ParticleSystem.startOutcome false).warnings = [] ∧
    (ParticleSystem.startOutcome false).particles = [] ∧
    (ParticleSystem.startOutcome false).timerStarted = false := by
  refine ⟨?_, rfl, rfl, ?_, rfl, rfl, rfl, ?_, rfl⟩ <;>
    simp [DiagonalParticleSystem.initOutcome, CircularParticleSystem.initOutcome,
      ParticleSystem.startOutcome, ParticleSystem.spawnBatch_absent]

/-- C8: calling `startAnimation()` twice on a freshly constructed manager
leaves exactly one live spawn interval, for both repeating-timer variants:
the second call clears the first interval before installing its replacement. -/
theorem claim_C8_single_spawn_timer :
    (DiagonalParticleSystem.startAnimation
      (DiagonalParticleSystem.startAnimation freshTimerState)).activeIntervals.length = 1 ∧
    (CircularParticleSystem.startAnimation
      (CircularParticleSystem.startAnimation freshTimerState)).activeIntervals.length = 1 := by
  decide

/-- The size and opacity guarantees of C5, as one predicate over the two
random draws: every variant's size lies in `[minSize, maxSize]`; the diagonal
variant's opacity is the linear image `0.3 + u * 0.7` of the size draw and
lies in `[0, 1]`; the categorical opacity draw of the other two variants also
lies in `[0, 1]`. -/
def sizeOpacityBounds (u v : ℚ) : Prop :=
  (ParticleSystem.minSize ≤ ParticleSystem.getRandomSize u ∧
    ParticleSystem.getRandomSize u ≤ ParticleSystem.maxSize) ∧
  (DiagonalParticleSystem.minSize ≤ DiagonalParticleSystem.getRandomSize u ∧
    DiagonalParticleSystem.getRandomSize u ≤ DiagonalParticleSystem.maxSize) ∧
  (CircularParticleSystem.minSize ≤ CircularParticleSystem.getRandomSize u ∧
    CircularParticleSystem.getRandomSize u ≤ CircularParticleSystem.maxSize) ∧
  DiagonalParticleSystem.getOpacityBasedOnSize (DiagonalParticleSystem.getRandomSize u)
    = 0.3 + u * 0.7 ∧
  DiagonalParticleSystem.getOpacityBasedOnSize DiagonalParticleSystem.minSize = 0.3 ∧
  DiagonalParticleSystem.getOpacityBasedOnSize DiagonalParticleSystem.maxSize = 1 ∧
  (0 ≤ DiagonalParticleSystem.getOpacityBasedOnSize (DiagonalParticleSystem.getRandomSize u) ∧
    DiagonalParticleSystem.getOpacityBasedOnSize (DiagonalParticleSystem.getRandomSize u) ≤ 1) ∧
  (0 ≤ ParticleSystem.particleOpacity v ∧ ParticleSystem.particleOpacity v ≤ 1) ∧
  (0 ≤ CircularParticleSystem.particleOpacity v ∧ CircularParticleSystem.particleOpacity v ≤ 1)

/-- C5: for any size draw `u ∈ [0, 1)` and any opacity draw `v`, sizes stay in
`[minSize, maxSize]`, the diagonal opacity is the linear map of size onto
`[0.3, 1.0]`, the categorical draw yields `0.8` or `0.4`, and every opacity
lies in `[0, 1]`. -/
theorem claim_C5_size_opacity (u v : ℚ) (h0 : 0 ≤ u) (h1 : u < 1) :
    sizeOpacityBounds u v := by
  unfold sizeOpacityBounds
  unfold ParticleSystem.getRandomSize ParticleSystem.minSize ParticleSystem.maxSize
  unfold DiagonalParticleSystem.getRandomSize DiagonalParticleSystem.getOpacityBasedOnSize
    DiagonalParticleSystem.minSize DiagonalParticleSystem.maxSize
  unfold CircularParticleSystem.getRandomSize CircularParticleSystem.minSize
    CircularParticleSystem.maxSize
  unfold ParticleSystem.particleOpacity CircularParticleSystem.particleOpacity
  refine ⟨⟨by nlinarith, by nlinarith⟩, ⟨by nlinarith, by nlinarith⟩,
    ⟨by nlinarith, by nlinarith⟩, by ring, by norm_num, by norm_num,
    ⟨by nlinarith, by nlinarith⟩, ?_, ?_⟩ <;> split <;> norm_num

/-- C5 witness: the guarantees at the concrete draws `u = v = 1/2`. -/
theorem claim_C5_size_opacity_witness : sizeOpacityBounds (1/2) (1/2) :=
  claim_C5_size_opacity (1/2) (1/2) (by norm_num) (by norm_num)

/-- Burst lemma for the debounce: if every consecutive gap of the (sorted)
event burst is shorter than the delay, every intermediate timeout is
cancelled and only the last event's timeout fires. -/
theorem debounceFires_burst (delay : Nat) :
    ∀ (rest : List Nat) (t : Nat),
      List.Chain' (fun a b => a ≤ b ∧ b < a + delay) (t :: rest) →
      debounceFires delay (t :: rest) = [(t :: rest).getLast (by simp) + delay] := by
  intro rest
  induction rest with
  | nil => intro t _; simp [debounceFires]
  | cons t2 rest2 ih =>
    intro t hchain
    rw [List.chain'_cons] at hchain
    obtain ⟨⟨hle, hlt⟩, hchain2⟩ := hchain
    have hrec := ih t2 hchain2
    simp only [debounceFires, hrec, if_neg (by omega : ¬t + delay ≤ t2)]
    simp [List.getLast_cons]

/-- C9: for any non-empty burst of resize events whose consecutive gaps are
all shorter than the 100 ms quiet period, the debounced handler performs
exactly one layout-recompute call, and it happens exactly one quiet period
after the last event. -/
theorem claim_C9_debounced_resize (ts : List Nat) (h : ts ≠ [])
    (hgap : List.Chain' (fun a b => a ≤ b ∧ b < a + resizeDebounceDelay) ts) :
    debounceFires resizeDebounceDelay ts = [ts.getLast h + resizeDebounceDelay] := by
  cases ts with
  | nil => exact absurd rfl h
  | cons t rest => exact debounceFires_burst resizeDebounceDelay rest t hgap

/-- C9 witness: ten resize events inside a 50 ms window produce exactly one
recompute, 100 ms after the last event (at t = 145 ms). -/
theorem claim_C9_debounced_resize_witness :
    debounceFires resizeDebounceDelay [0, 5, 10, 15, 20, 25, 30, 35, 40, 45] =
      [45 + resizeDebounceDelay] :=
  claim_C9_debounced_resize [0, 5, 10, 15, 20, 25, 30, 35, 40, 45]
    (by decide) (by simp [List.chain'_cons, resizeDebounceDelay])

/-- C10: `removeParticle` is total and idempotent: on a particle absent from
the active set and the scene it changes nothing (and cannot throw, being a
total function), and removing the same particle twice has the effect of
removing it once (the active set and scene hold distinct ids, so the first
call already erased every occurrence). -/
theorem claim_C10_remove_particle_idempotent (s : MgrState) (p : Nat) :
    (p ∉ s.particles → p ∉ s.scene → removeParticle s p = s) ∧
    (s.particles.Nodup → s.scene.Nodup →
      removeParticle (removeParticle s p) p = removeParticle s p) := by
  constructor
  · intro h1 h2
    unfold removeParticle
    rw [List.erase_of_not_mem h1, List.erase_of_not_mem h2]
  · intro h1 h2
    have hp1 : p ∉ s.particles.erase p :=
      fun hmem => ((h1.mem_erase_iff).mp hmem).1 rfl
    have hp2 : p ∉ s.scene.erase p :=
      fun hmem => ((h2.mem_erase_iff).mp hmem).1 rfl
    unfold removeParticle
    simp only [List.erase_of_not_mem hp1, List.erase_of_not_mem hp2]

/-- C10 witness: on the two-particle manager, removing the absent particle 3
changes nothing, and removing particle 1 twice equals removing it once. -/
theorem claim_C10_remove_particle_idempotent_witness :
    removeParticle twoParticleState 3 = twoParticleState ∧
    removeParticle (removeParticle twoParticleState 1) 1 =
      removeParticle twoParticleState 1 :=
  ⟨(claim_C10_remove_particle_idempotent twoParticleState 3).1 (by decide) (by decide),
   (claim_C10_remove_particle_idempotent twoParticleState 1).2 (by decide) (by decide)⟩

/-- C2 counterexample: the diagonal variant contradicts the claimed
`end.y = start.y - d*sin(theta)`.  At start point `(0, 0)` with the drift
draw `u = 0.5` (zero drift, so `theta` is the 135 degree beam angle itself),
the code's end ordinate is `travelDist * sin(theta) > 0`, while the spec
formula demands its negation. -/
theorem claim_C2_diagonal_sign_flipped :
    DiagonalParticleSystem.endY 0 0.5 ≠
      specMotionEndY 0 DiagonalParticleSystem.travelDist
        (DiagonalParticleSystem.finalAngle 0.5) := by
  have hpi := Real.pi_pos
  have hrad : DiagonalParticleSystem.angleRad = 135 * Real.pi / 180 := rfl
  have h0 : 0 < DiagonalParticleSystem.angleRad := by rw [hrad]; positivity
  have hlt : DiagonalParticleSystem.angleRad < Real.pi := by rw [hrad]; linarith
  have hs : 0 < Real.sin DiagonalParticleSystem.angleRad :=
    Real.sin_pos_of_pos_of_lt_pi h0 hlt
  have hfa : DiagonalParticleSystem.finalAngle 0.5 = DiagonalParticleSystem.angleRad := by
    unfold DiagonalParticleSystem.finalAngle; ring
  have htd : 0 < DiagonalParticleSystem.travelDist := by
    unfold DiagonalParticleSystem.travelDist
    have h679 : (0:ℝ) < 679 / Real.sin DiagonalParticleSystem.angleRad :=
      div_pos (by norm_num) hs
    nlinarith
  unfold DiagonalParticleSystem.endY specMotionEndY
  rw [hfa]
  intro heq
  nlinarith [mul_pos htd hs]

/-- C2 amended: the circular variant satisfies the spec's end-point formula
`end = start + d * (cos theta, -sin theta)` exactly; the diagonal variant
matches on the X coordinate but computes `end.y = start.y + d * sin(theta)`
(its 135 degree beam angle is already expressed in screen-down coordinates,
so no Y flip is applied). -/
theorem claim_C2_motion_end_point (sx sy ang u : ℝ) :
    CircularParticleSystem.endX sx ang u
      = specMotionEndX sx (CircularParticleSystem.travelDistance u) (degToRad ang) ∧
    CircularParticleSystem.endY sy ang u
      = specMotionEndY sy (CircularParticleSystem.travelDistance u) (degToRad ang) ∧
    DiagonalParticleSystem.endX sx u
      = specMotionEndX sx DiagonalParticleSystem.travelDist
          (DiagonalParticleSystem.finalAngle u) ∧
    DiagonalParticleSystem.endY sy u
      = sy + DiagonalParticleSystem.travelDist
          * Real.sin (DiagonalParticleSystem.finalAngle u) := by
  refine ⟨?_, ?_, ?_, ?_⟩ <;>
    simp only [CircularParticleSystem.endX, CircularParticleSystem.endY,
      DiagonalParticleSystem.endX, DiagonalParticleSystem.endY,
      specMotionEndX, specMotionEndY] <;>
    ring
